import Mathlib

/-!
Shallow embedding of `assdumper.go` (an MPEG2-TS closed-caption extractor):
transport-packet analysis, PSI table decoding, PCR clock tracking,
time-offset-table decoding, and caption dialogue reconstruction, translated
function by function from the Go source.  Bytes are modelled as `Nat`,
Go `int`/`int64` values as `Int` (the quantities reachable here stay far from
64-bit overflow), and Go panics as `Except.error`.  Index-out-of-range reads
of byte windows are modelled as reading 0.  Standard output is modelled as a
list of output events; standard-error diagnostics are not modelled.
-/

/-- Output events on standard output: the fixed script header block (printed by
the source's printPrelude) or one dialogue line.  A dialogue line is determined
by the two centitime instants (start and end of the interval: presentation
centitime plus clock offset) and the caption text; the hh:mm:ss.cc rendering of
those instants through Go's local-time calendar formatting is abstracted to the
carried values. -/
inductive OutputLine where
  | prelude
  | dialogue (startCenti endCenti : Int) (text : String)
  deriving DecidableEq

/-- SystemClock from the source: an int64 counter of 27 MHz ticks. -/
abbrev SystemClock := Int

/-- AnalyzerState, translated field by field from the Go struct.  The Go map
`pmtPids map[int]bool` (nil at start) is modelled as an optional list of
PIDs. -/
structure AnalyzerState where
  pmtPids : Option (List Nat)
  pcrPid : Int
  captionPid : Int
  currentTimestamp : SystemClock
  clockOffset : Int
  previousSubtitle : String
  previousIsBlank : Bool
  previousTimestamp : SystemClock
  preludePrinted : Bool
  deriving DecidableEq

/-- The constant K from the source: 27000000 (ticks per second). -/
def K : Int := 27000000

/-- centitime from the source: `int64(clock) / (K / 100)`.  Go int64 division
truncates toward zero, hence `Int.tdiv`. -/
def centitime (clock : SystemClock) : Int := Int.tdiv clock (Int.tdiv K 100)

/-- isBlank from the source: every character of the string is a space. -/
def isBlank (str : String) : Bool := str.data.all (fun c => c == ' ')

/-- decodeBcd from the source: high nibble times ten plus low nibble. -/
def decodeBcd (n : Nat) : Nat := (n >>> 4) * 10 + (n &&& 0x0f)

/-- Modelled from the spec: leap-year predicate of the proleptic Gregorian
calendar, as used by Go's time package (an external library to the core). -/
def isLeapYear (y : Int) : Bool := (y % 4 == 0 && y % 100 != 0) || y % 400 == 0

/-- Modelled from the spec: length of each month, for the range checks Go's
time.Parse performs on a day-of-month field. -/
def daysInMonth (y m : Int) : Int :=
  if m = 2 then (if isLeapYear y then 29 else 28)
  else if m = 4 ∨ m = 6 ∨ m = 9 ∨ m = 11 then 30
  else 31

/-- Modelled from the spec: civil date to days since the Unix epoch in the
proleptic Gregorian calendar, as Go's time package computes for valid dates. -/
def daysFromCivil (y m d : Int) : Int :=
  let yy := if m ≤ 2 then y - 1 else y
  let era := Int.fdiv yy 400
  let yoe := yy - era * 400
  let mp := (m + 9) % 12
  let doy := Int.fdiv (153 * mp + 2) 5 + d - 1
  let doe := yoe * 365 + Int.fdiv yoe 4 - Int.fdiv yoe 100 + doy
  era * 146097 + doe - 719468

/-- Modelled from the spec: Go's `time.Parse(time.RFC3339, ...)` applied to the
string the source builds with Sprintf, followed by `Time.Unix()`.  Parsing
succeeds exactly when every formatted component is in range for the RFC3339
layout (four-digit year, valid calendar month and day, 24-hour clock fields);
the fixed +09:00 zone offset is subtracted to reach Unix seconds.  On a
malformed component the source panics on the parse error: modelled as
`Except.error`. -/
def parseRfc3339JstUnix (year month day hour minute second : Int) :
    Except String Int :=
  if 1000 ≤ year ∧ year ≤ 9999 ∧ 1 ≤ month ∧ month ≤ 12 ∧
      1 ≤ day ∧ day ≤ daysInMonth year month ∧
      0 ≤ hour ∧ hour ≤ 23 ∧ 0 ≤ minute ∧ minute ≤ 59 ∧
      0 ≤ second ∧ second ≤ 59 then
    .ok (daysFromCivil year month day * 86400 +
      hour * 3600 + minute * 60 + second - 32400)
  else
    .error "time parse error"

/-- extractJstTime from the source.  The source's float64 arithmetic on the
Modified Julian Date (constants 15078.2, 365.25, 30.6001, with Go's `int(x)`
truncating toward zero) is modelled by exact rational arithmetic written as
truncated integer division; over the 16-bit MJD range the float results agree
away from integer boundaries, and no claim below depends on a boundary case.
A payload not opening with marker 0x73 yields 0; a decoded date-time that Go's
time.Parse rejects is a panic, modelled as `Except.error`. -/
def extractJstTime (payload : List Nat) : Except String Int :=
  if payload.getD 0 0 ≠ 0x73 then .ok 0
  else
    let mjd : Int := (((payload.getD 3 0) <<< 8) ||| payload.getD 4 0 : Nat)
    let y : Int := Int.tdiv (20 * mjd - 301564) 7305
    let ym : Int := Int.tdiv (y * 1461) 4
    let m : Int := Int.tdiv (((mjd - ym) * 10 - 149561) * 1000) 306001
    let k : Int := if m = 14 ∨ m = 15 then 1 else 0
    let year := y + k + 1900
    let month := m - 2 - k * 12
    let day := mjd - 14956 - ym - Int.tdiv (m * 306001) 10000
    let hour : Int := decodeBcd (payload.getD 5 0)
    let minute : Int := decodeBcd (payload.getD 6 0)
    let second : Int := decodeBcd (payload.getD 7 0)
    parseRfc3339JstUnix year month day hour minute second

/-- extractPcr from the source: `pcr_base * 300 + pcr_ext`, with
`pcr_ext = (payload[5] & 0x01) | payload[6]` exactly as written there (the
low bit of byte 5 is ORed into bit 0, not shifted to bit 8). -/
def extractPcr (payload : List Nat) : SystemClock :=
  let pcrBase : Int :=
    (((payload.getD 1 0) <<< 25) ||| ((payload.getD 2 0) <<< 17) |||
      ((payload.getD 3 0) <<< 9) ||| ((payload.getD 4 0) <<< 1) |||
      ((payload.getD 5 0 &&& 0x80) >>> 7) : Nat)
  let pcrExt : Int := ((payload.getD 5 0 &&& 0x01) ||| payload.getD 6 0 : Nat)
  pcrBase * 300 + pcrExt

/-- Modelled from the spec (and ISO/IEC 13818-1 2.4.2.2, which the source's
comment cites): the 9-bit PCR extension carries the low bit of byte 5 as its
bit 8 and byte 6 as bits 7..0.  Stated only for comparison with
`extractPcr`. -/
def extractPcrSpec (payload : List Nat) : SystemClock :=
  let pcrBase : Int :=
    (((payload.getD 1 0) <<< 25) ||| ((payload.getD 2 0) <<< 17) |||
      ((payload.getD 3 0) <<< 9) ||| ((payload.getD 4 0) <<< 1) |||
      ((payload.getD 5 0 &&& 0x80) >>> 7) : Nat)
  let pcrExt : Int := (((payload.getD 5 0 &&& 0x01) <<< 8) ||| payload.getD 6 0 : Nat)
  pcrBase * 300 + pcrExt

/-- Entry loop of extractPmtPids: walk 4-byte program entries from `index` up
to `bound`, recording each program_map_PID whose program_number is non-zero.
The Go map keyed by PID is modelled as a duplicate-free list in insertion
order. -/
def pmtPidsLoop (payload : List Nat) (bound index : Nat) (pids : List Nat) :
    List Nat :=
  if h : index < bound then
    let programNumber := ((payload.getD index 0) <<< 8) ||| payload.getD (index + 1) 0
    let pids1 :=
      if programNumber ≠ 0 then
        let programMapPid :=
          ((payload.getD (index + 2) 0 &&& 0x1F) <<< 8) ||| payload.getD (index + 3) 0
        if programMapPid ∈ pids then pids else pids ++ [programMapPid]
      else pids
    pmtPidsLoop payload bound (index + 4) pids1
  else pids
termination_by bound - index
decreasing_by omega

/-- extractPmtPids from the source: PAT decoding.  A wrong table_id yields the
empty set; otherwise 4-byte entries are walked from byte 8 while the index is
below `3 + section_length - 4`. -/
def extractPmtPids (payload : List Nat) : List Nat :=
  if payload.getD 0 0 ≠ 0x00 then []
  else
    let sectionLength := ((payload.getD 1 0 &&& 0x0F) <<< 8) ||| payload.getD 2 0
    pmtPidsLoop payload (3 + sectionLength - 4) 8 []

/-- extractPcrPid from the source: the 13-bit PCR_PID field of a PMT payload. -/
def extractPcrPid (payload : List Nat) : Int :=
  (((payload.getD 8 0 &&& 0x1f) <<< 8) ||| payload.getD 9 0 : Nat)

/-- Descriptor loop of extractCaptionPid: scan the descriptors of one
elementary stream; a stream-identifier descriptor (tag 0x52) whose
component_tag is 0x87 returns the elementary PID, ending the whole search. -/
def captionDescriptorLoop (payload : List Nat) (bound subIndex elementaryPid : Nat) :
    Option Int :=
  if h : subIndex < bound then
    let descriptorLength := payload.getD (subIndex + 1) 0
    if payload.getD subIndex 0 = 0x52 ∧ payload.getD (subIndex + 2) 0 = 0x87 then
      some (elementaryPid : Int)
    else captionDescriptorLoop payload bound (subIndex + 2 + descriptorLength) elementaryPid
  else none
termination_by bound - subIndex
decreasing_by omega

/-- Elementary-stream loop of extractCaptionPid: entries of stream_type, 13-bit
elementary PID and a descriptor loop of declared length; entries with
stream_type 0x06 are searched for the caption component tag. -/
def captionStreamLoop (payload : List Nat) (bound index : Nat) : Int :=
  if h : index < bound then
    let esInfoLength := ((payload.getD (index + 3) 0 &&& 0xF) <<< 8) ||| payload.getD (index + 4) 0
    if payload.getD index 0 = 0x06 then
      let elementaryPid :=
        ((payload.getD (index + 1) 0 &&& 0x1F) <<< 8) ||| payload.getD (index + 2) 0
      match captionDescriptorLoop payload (index + esInfoLength) (index + 5) elementaryPid with
      | some pid => pid
      | none => captionStreamLoop payload bound (index + 5 + esInfoLength)
    else captionStreamLoop payload bound (index + 5 + esInfoLength)
  else -1
termination_by bound - index
decreasing_by all_goals omega

/-- extractCaptionPid from the source: PMT decoding.  A wrong table_id or a
section_length not shorter than the payload aborts with -1 ("not found");
otherwise the elementary-stream loop runs after the program-info descriptor
block. -/
def extractCaptionPid (payload : List Nat) : Int :=
  if payload.getD 0 0 ≠ 0x02 then -1
  else
    let sectionLength := ((payload.getD 1 0 &&& 0x0F) <<< 8) ||| payload.getD 2 0
    if sectionLength ≥ payload.length then -1
    else
      let programInfoLength := ((payload.getD 10 0 &&& 0x0F) <<< 8) ||| payload.getD 11 0
      captionStreamLoop payload (3 + sectionLength - 4) (12 + programInfoLength)

/-- decodeCprofile: the source's stub caption-text decoder, returning the
constant "dummy".  The spec designates caption-text decoding an external
collaborator, so the caption machinery below is parameterized over a decoder
of this type; this constant recovers the source program exactly. -/
def decodeCprofile (str : List Nat) (length : Nat) : String := "dummy"

/-- printPrelude from the source: the fixed header block, as one output
event. -/
def printPrelude : List OutputLine := [OutputLine.prelude]

/-- Emission guard of dumpCaption (source line 254): a pending subtitle exists
(non-empty string) and not both it is blank and the stored previousIsBlank
flag is set. -/
def captionEmits (s : AnalyzerState) : Bool :=
  s.previousSubtitle.length != 0 && !(isBlank s.previousSubtitle && s.previousIsBlank)

/-- Body of dumpCaption's loop for one displayable caption data unit
(data_unit_parameter 0x20) whose decoded text is `text`: when the guard holds,
the header (if not yet printed) and the dialogue interval from
previousTimestamp to currentTimestamp carrying the pending text are printed;
in every case the pending subtitle, the previousIsBlank flag (set from the
subtitle being replaced) and the pending start timestamp are then updated. -/
def captionStep (text : String) (s : AnalyzerState) :
    AnalyzerState × List OutputLine :=
  if captionEmits s then
    ({ s with previousIsBlank := isBlank s.previousSubtitle,
              previousSubtitle := text,
              previousTimestamp := s.currentTimestamp,
              preludePrinted := true },
      (if !s.preludePrinted then printPrelude else []) ++
        [OutputLine.dialogue (centitime s.previousTimestamp + s.clockOffset)
          (centitime s.currentTimestamp + s.clockOffset) s.previousSubtitle])
  else
    ({ s with previousIsBlank := isBlank s.previousSubtitle,
              previousSubtitle := text,
              previousTimestamp := s.currentTimestamp }, [])

/-- Data-unit loop of dumpCaption: each unit occupies 5 + data_unit_size bytes
of the loop window; units with data_unit_parameter 0x20 are displayable
caption strings handed to the caption-text decoder `dec` and then to
`captionStep`; all other units are skipped. -/
def dumpCaptionLoop (dec : List Nat → Nat → String) (p : List Nat)
    (loopLength index : Nat) (s : AnalyzerState) :
    AnalyzerState × List OutputLine :=
  if h : index < loopLength then
    let q := p.drop index
    let dataUnitSize := ((q.getD 5 0) <<< 16) ||| ((q.getD 6 0) <<< 8) ||| q.getD 7 0
    let r := if q.getD 4 0 = 0x20 then captionStep (dec (q.drop 8) dataUnitSize) s
             else (s, [])
    let rest := dumpCaptionLoop dec p loopLength (index + 5 + dataUnitSize) r.1
    (rest.1, r.2 ++ rest.2)
  else (s, [])
termination_by loopLength - index
decreasing_by omega

/-- dumpCaption from the source: skip the PES optional header and the caption
PES-data sub-header, branch on data_group_id (caption management data, id 0x00
or 0x20, additionally skips the per-language block), then run the data-unit
loop over data_unit_loop_length bytes. -/
def dumpCaption (dec : List Nat → Nat → String) (payload : List Nat)
    (s : AnalyzerState) : AnalyzerState × List OutputLine :=
  let pesHeaderDataLength := payload.getD 8 0
  let pesDataPacketHeaderLength := payload.getD (11 + pesHeaderDataLength) 0 &&& 0x0F
  let p0 := payload.drop (12 + pesHeaderDataLength + pesDataPacketHeaderLength)
  let dataGroupId := (p0.getD 0 0 &&& 0xFC) >>> 2
  let p := if dataGroupId = 0x00 ∨ dataGroupId = 0x20
           then p0.drop (7 + (p0.getD 6 0) * 5)
           else p0.drop 6
  let loopLength := ((p.getD 0 0) <<< 16) ||| ((p.getD 1 0) <<< 8) ||| p.getD 2 0
  dumpCaptionLoop dec p loopLength 0 s

/-- Length of the Go pmtPids map (a nil map has length 0). -/
def pmtSize : Option (List Nat) → Nat
  | none => 0
  | some l => l.length

/-- Go's `state.pmtPids != nil && state.pmtPids[pid]`. -/
def pmtMember : Option (List Nat) → Nat → Bool
  | none, _ => false
  | some l, pid => l.contains pid

/-- assertSyncByte from the source: panics (modelled as an error) unless the
first packet byte is 0x47. -/
def assertSyncByte (packet : List Nat) : Except String Unit :=
  if packet.getD 0 0 ≠ 0x47 then .error "sync_byte failed" else .ok ()

/-- Adaptation-field handling of analyzePacket: when an adaptation field whose
PCR flag is set is present on a packet of the resolved PCR PID,
currentTimestamp is overwritten from the decoded PCR. -/
def adaptationStep (packet : List Nat) (s : AnalyzerState) : AnalyzerState :=
  if (packet.getD 3 0 &&& 0x20 ≠ 0) ∧
      (((packet.drop 4).drop 1).getD 0 0 &&& 0x10 ≠ 0) ∧
      ((((packet.getD 1 0 &&& 0x1f) <<< 8) ||| packet.getD 2 0 : Nat) : Int) = s.pcrPid then
    { s with currentTimestamp := extractPcr ((packet.drop 4).drop 1) }
  else s

/-- Payload window of analyzePacket: the packet bytes after the 4-byte header
and, when present, the length-prefixed adaptation field. -/
def payloadWindow (packet : List Nat) : List Nat :=
  let p0 := packet.drop 4
  if packet.getD 3 0 &&& 0x20 ≠ 0 then (p0.drop 1).drop (p0.getD 0 0) else p0

/-- analyzePacket from the source: enforce the sync byte, track the PCR clock
through the adaptation field, then dispatch the payload by PID -- PAT (PID 0,
only while the program-map PID set is empty), PMT (PIDs of that set, only
while the caption PID is unresolved and the payload unit starts), time-offset
table (PID 0x0014), and caption payload (the resolved caption PID, on payload
unit start).  The stderr diagnostics of the source are not part of the
modelled output. -/
def analyzePacket (dec : List Nat → Nat → String) (packet : List Nat)
    (s : AnalyzerState) : Except String (AnalyzerState × List OutputLine) :=
  match assertSyncByte packet with
  | .error e => .error e
  | .ok _ =>
    let payloadUnitStartIndicator := packet.getD 1 0 &&& 0x40 ≠ 0
    let pid := ((packet.getD 1 0 &&& 0x1f) <<< 8) ||| packet.getD 2 0
    let hasPayload := packet.getD 3 0 &&& 0x10 ≠ 0
    let s1 := adaptationStep packet s
    let p := payloadWindow packet
    if hasPayload then
      if pid = 0 then
        if pmtSize s1.pmtPids = 0 then
          .ok ({ s1 with pmtPids := some (extractPmtPids (p.drop 1)) }, [])
        else .ok (s1, [])
      else if pmtMember s1.pmtPids pid then
        if s1.captionPid = -1 ∧ payloadUnitStartIndicator then
          let pcrPid := extractPcrPid (p.drop 1)
          let captionPid := extractCaptionPid (p.drop 1)
          if captionPid ≠ -1 then
            .ok ({ s1 with pcrPid := pcrPid, captionPid := captionPid }, [])
          else .ok (s1, [])
        else .ok (s1, [])
      else if pid = 0x0014 then
        match extractJstTime (p.drop 1) with
        | .error e => .error e
        | .ok t =>
          if t ≠ 0 then
            .ok ({ s1 with clockOffset := t * 100 - centitime s1.currentTimestamp }, [])
          else .ok (s1, [])
      else if (pid : Int) = s1.captionPid then
        if payloadUnitStartIndicator then .ok (dumpCaption dec p s1)
        else .ok (s1, [])
      else .ok (s1, [])
    else .ok (s1, [])

/-- Packet loop of main: feed each frame to analyzePacket in order; output
accumulates in arrival order, and a panic stops the run (output already
printed before the panic is kept, nothing of the failing packet is). -/
def runPackets (dec : List Nat → Nat → String) :
    List (List Nat) → AnalyzerState → Except String AnalyzerState × List OutputLine
  | [], s => (.ok s, [])
  | packet :: rest, s =>
    match analyzePacket dec packet s with
    | .error e => (.error e, [])
    | .ok r =>
      let next := runPackets dec rest r.1
      (next.1, r.2 ++ next.2)

/-- Initial analyzer state set up by main: zero values except pcrPid and
captionPid, which start at -1. -/
def initialState : AnalyzerState :=
  { pmtPids := none, pcrPid := -1, captionPid := -1, currentTimestamp := 0,
    clockOffset := 0, previousSubtitle := "", previousIsBlank := false,
    previousTimestamp := 0, preludePrinted := false }

/-- State after one packet with the source's stub decoder (identity on a
panic), used to phrase concrete runs. -/
def stepOk (packet : List Nat) (s : AnalyzerState) : AnalyzerState :=
  match analyzePacket decodeCprofile packet s with
  | .ok r => r.1
  | .error _ => s

/-- Property of the state a packet reaches when it decodes without a panic. -/
def onOk (r : Except String (AnalyzerState × List OutputLine))
    (P : AnalyzerState → Prop) : Prop :=
  match r with
  | .ok x => P x.1
  | .error _ => True

/-- Property of the state-and-output pair a packet reaches when it decodes
without a panic. -/
def onOkOut (r : Except String (AnalyzerState × List OutputLine))
    (P : AnalyzerState × List OutputLine → Prop) : Prop :=
  match r with
  | .ok x => P x
  | .error _ => True

/-- Valid extension of the output stream relative to the preludePrinted flag:
with the header already printed, no further header appears; with it not yet
printed, either nothing is printed, or the header is printed first, exactly
once, and is immediately followed by at least one more line. -/
def extOk (b : Bool) (out : List OutputLine) (b2 : Bool) : Prop :=
  match b with
  | true => OutputLine.prelude ∉ out ∧ b2 = true
  | false =>
    (out = [] ∧ b2 = false) ∨
    (∃ rest, out = OutputLine.prelude :: rest ∧ OutputLine.prelude ∉ rest ∧
      rest ≠ [] ∧ b2 = true)

/-- Dialogue lines among output events. -/
def isDialogueLine : OutputLine → Bool
  | OutputLine.prelude => false
  | OutputLine.dialogue _ _ _ => true

/-- Fields of the analyzer state that, once resolved, the claims say stay
fixed: the program-map PID set and the caption and PCR PIDs. -/
def sameResolution (a b : AnalyzerState) : Prop :=
  a.pmtPids = b.pmtPids ∧ a.pcrPid = b.pcrPid ∧ a.captionPid = b.captionPid

/-- A time-offset-table packet (PID 0x0014, payload only) carrying MJD 45218
with BCD time 12:30:00. -/
def totPacket1 : List Nat :=
  [0x47, 0x00, 0x14, 0x10, 0x00, 0x73, 0x00, 0x00, 0xB0, 0xA2, 0x12, 0x30, 0x00]

/-- The same time-offset-table packet one hour later (BCD time 13:30:00). -/
def totPacket2 : List Nat :=
  [0x47, 0x00, 0x14, 0x10, 0x00, 0x73, 0x00, 0x00, 0xB0, 0xA2, 0x13, 0x30, 0x00]

/-- A time-offset-table payload opening with marker 0x73 whose MJD 59580 is a
January date (2022-01-01), with all BCD time fields zero. -/
def januaryTotPayload : List Nat :=
  [0x73, 0x00, 0x00, 0xE8, 0xBC, 0x00, 0x00, 0x00]

/-- The time-offset-table packet wrapping januaryTotPayload. -/
def januaryTotPacket : List Nat :=
  [0x47, 0x00, 0x14, 0x10, 0x00, 0x73, 0x00, 0x00, 0xE8, 0xBC, 0x00, 0x00, 0x00]

/-- PCR bytes whose byte 5 has only its low bit set and whose other bytes are
zero: PCR base 0, extension high bit set. -/
def pcrLowBitPayload : List Nat := [0x00, 0x00, 0x00, 0x00, 0x00, 0x01, 0x00]

/-- A PAT packet: PID 0, payload present, payload unit start. -/
def patPacket : List Nat := [0x47, 0x40, 0x00, 0x10, 0x00, 0x00, 0xB0, 0x0D]

/-- A packet on PID 0x100 (a program-map PID below) with payload unit start. -/
def pmtPacket : List Nat := [0x47, 0x41, 0x00, 0x10, 0x00, 0x02, 0xB0, 0x0D]

/-- A state that has already recorded program-map PID 0x100. -/
def discoveredState : AnalyzerState := { initialState with pmtPids := some [0x100] }

/-- A state that has already resolved caption PID 0x200 and PCR PID 0x101. -/
def resolvedState : AnalyzerState :=
  { initialState with pmtPids := some [0x100], pcrPid := 0x101, captionPid := 0x200 }

/-- A packet whose first byte is not the sync byte 0x47. -/
def badSyncPacket : List Nat := [0x00, 0x40, 0x00, 0x10]

/-- A payload whose first byte is not the time-offset-table marker 0x73. -/
def nonTotPayload : List Nat := [0x70, 0x00, 0x00]

theorem sameResolution_refl (a : AnalyzerState) : sameResolution a a :=
  ⟨rfl, rfl, rfl⟩

theorem sameResolution_trans {a b c : AnalyzerState}
    (h1 : sameResolution a b) (h2 : sameResolution b c) : sameResolution a c :=
  ⟨h1.1.trans h2.1, h1.2.1.trans h2.2.1, h1.2.2.trans h2.2.2⟩

theorem adaptationStep_fields (packet : List Nat) (s : AnalyzerState) :
    (adaptationStep packet s).pmtPids = s.pmtPids ∧
    (adaptationStep packet s).pcrPid = s.pcrPid ∧
    (adaptationStep packet s).captionPid = s.captionPid ∧
    (adaptationStep packet s).preludePrinted = s.preludePrinted ∧
    (adaptationStep packet s).clockOffset = s.clockOffset := by
  unfold adaptationStep
  split <;> exact ⟨rfl, rfl, rfl, rfl, rfl⟩

theorem captionStep_sameRes (text : String) (s : AnalyzerState) :
    sameResolution (captionStep text s).1 s := by
  unfold captionStep
  split <;> exact ⟨rfl, rfl, rfl⟩

theorem dumpCaptionLoop_sameRes (dec : List Nat → Nat → String) (p : List Nat)
    (L : Nat) : ∀ (n index : Nat) (s : AnalyzerState), L - index ≤ n →
    sameResolution (dumpCaptionLoop dec p L index s).1 s := by
  intro n
  induction n with
  | zero =>
    intro index s hn
    unfold dumpCaptionLoop
    have hidx : ¬ index < L := by omega
    rw [dif_neg hidx]
    exact sameResolution_refl s
  | succ n ih =>
    intro index s hn
    unfold dumpCaptionLoop
    by_cases hidx : index < L
    · rw [dif_pos hidx]
      dsimp only
      refine sameResolution_trans (ih _ _ (by omega)) ?_
      split
      · exact captionStep_sameRes _ _
      · exact sameResolution_refl s
    · rw [dif_neg hidx]
      exact sameResolution_refl s

theorem dumpCaption_sameRes (dec : List Nat → Nat → String) (payload : List Nat)
    (s : AnalyzerState) : sameResolution (dumpCaption dec payload s).1 s := by
  unfold dumpCaption
  exact dumpCaptionLoop_sameRes dec _ _ _ 0 s (Nat.sub_le _ _)

theorem extOk_nil (b : Bool) : extOk b [] b := by
  cases b <;> simp [extOk]

theorem extOk_trans {b1 b2 b3 : Bool} {o1 o2 : List OutputLine}
    (h1 : extOk b1 o1 b2) (h2 : extOk b2 o2 b3) : extOk b1 (o1 ++ o2) b3 := by
  cases b1 with
  | true =>
    simp only [extOk] at h1 h2 ⊢
    obtain ⟨hn1, hb⟩ := h1
    subst hb
    obtain ⟨hn2, hb3⟩ := h2
    exact ⟨by simp [List.mem_append, hn1, hn2], hb3⟩
  | false =>
    simp only [extOk] at h1 ⊢
    rcases h1 with ⟨ho, hb⟩ | ⟨rest, ho, hnm, hne, hb⟩
    · subst ho; subst hb
      simpa [extOk] using h2
    · subst hb
      simp only [extOk] at h2
      obtain ⟨hn2, hb3⟩ := h2
      refine Or.inr ⟨rest ++ o2, by simp [ho], ?_, by simp [hne], hb3⟩
      simp [List.mem_append, hnm, hn2]

theorem captionStep_extOk (text : String) (s : AnalyzerState) :
    extOk s.preludePrinted (captionStep text s).2
      ((captionStep text s).1).preludePrinted := by
  unfold captionStep
  split
  · cases hb : s.preludePrinted with
    | true => simp [extOk, hb, printPrelude]
    | false =>
      simp only [hb, extOk, printPrelude, Bool.not_false, if_pos, List.cons_append,
        List.nil_append]
      exact Or.inr ⟨[OutputLine.dialogue
        (centitime s.previousTimestamp + s.clockOffset)
        (centitime s.currentTimestamp + s.clockOffset) s.previousSubtitle],
        by simp, by simp, by simp, by simp⟩
  · exact extOk_nil s.preludePrinted

theorem dumpCaptionLoop_extOk (dec : List Nat → Nat → String) (p : List Nat)
    (L : Nat) : ∀ (n index : Nat) (s : AnalyzerState), L - index ≤ n →
    extOk s.preludePrinted (dumpCaptionLoop dec p L index s).2
      ((dumpCaptionLoop dec p L index s).1).preludePrinted := by
  intro n
  induction n with
  | zero =>
    intro index s hn
    unfold dumpCaptionLoop
    have hidx : ¬ index < L := by omega
    rw [dif_neg hidx]
    exact extOk_nil s.preludePrinted
  | succ n ih =>
    intro index s hn
    unfold dumpCaptionLoop
    by_cases hidx : index < L
    · rw [dif_pos hidx]
      dsimp only
      refine extOk_trans ?_ (ih _ _ (by omega))
      split
      · exact captionStep_extOk _ _
      · exact extOk_nil s.preludePrinted
    · rw [dif_neg hidx]
      exact extOk_nil s.preludePrinted

theorem dumpCaption_extOk (dec : List Nat → Nat → String) (payload : List Nat)
    (s : AnalyzerState) :
    extOk s.preludePrinted (dumpCaption dec payload s).2
      ((dumpCaption dec payload s).1).preludePrinted := by
  unfold dumpCaption
  exact dumpCaptionLoop_extOk dec _ _ _ 0 s (Nat.sub_le _ _)

theorem analyzePacket_master (dec : List Nat → Nat → String) (packet : List Nat)
    (s : AnalyzerState) :
    onOkOut (analyzePacket dec packet s) (fun r =>
      (pmtSize s.pmtPids ≠ 0 → r.1.pmtPids = s.pmtPids) ∧
      (s.captionPid ≠ -1 → r.1.captionPid = s.captionPid ∧ r.1.pcrPid = s.pcrPid) ∧
      extOk s.preludePrinted r.2 r.1.preludePrinted) := by
  obtain ⟨hA1, hA2, hA3, hA4, hA5⟩ := adaptationStep_fields packet s
  unfold analyzePacket
  cases hsync : assertSyncByte packet with
  | error e => simp [onOkOut]
  | ok u =>
    dsimp only
    split
    · split
      · split
        · rename_i hsz
          simp only [onOkOut]
          refine ⟨?_, ?_, ?_⟩
          · intro hne
            exfalso
            rw [hA1] at hsz
            exact hne hsz
          · intro hc
            exact ⟨hA3, hA2⟩
          · rw [← hA4]
            exact extOk_nil _
        · simp only [onOkOut]
          refine ⟨fun _ => hA1, fun _ => ⟨hA3, hA2⟩, by rw [← hA4]; exact extOk_nil _⟩
      · split
        · split
          · rename_i hguard
            split
            · simp only [onOkOut]
              refine ⟨fun _ => hA1, ?_, by rw [← hA4]; exact extOk_nil _⟩
              intro hc
              exfalso
              rw [hA3] at hguard
              exact hc hguard.1
            · simp only [onOkOut]
              exact ⟨fun _ => hA1, fun _ => ⟨hA3, hA2⟩, by rw [← hA4]; exact extOk_nil _⟩
          · simp only [onOkOut]
            exact ⟨fun _ => hA1, fun _ => ⟨hA3, hA2⟩, by rw [← hA4]; exact extOk_nil _⟩
        · split
          · split
            · simp [onOkOut]
            · split
              · simp only [onOkOut]
                exact ⟨fun _ => hA1, fun _ => ⟨hA3, hA2⟩, by rw [← hA4]; exact extOk_nil _⟩
              · simp only [onOkOut]
                exact ⟨fun _ => hA1, fun _ => ⟨hA3, hA2⟩, by rw [← hA4]; exact extOk_nil _⟩
          · split
            · split
              · simp only [onOkOut]
                obtain ⟨hd1, hd2, hd3⟩ :=
                  dumpCaption_sameRes dec (payloadWindow packet) (adaptationStep packet s)
                refine ⟨?_, ?_, ?_⟩
                · intro hne; rw [hd1, hA1]
                · intro hc; exact ⟨hd3.trans hA3, hd2.trans hA2⟩
                · rw [← hA4]
                  exact dumpCaption_extOk dec (payloadWindow packet) (adaptationStep packet s)
              · simp only [onOkOut]
                exact ⟨fun _ => hA1, fun _ => ⟨hA3, hA2⟩, by rw [← hA4]; exact extOk_nil _⟩
            · simp only [onOkOut]
              exact ⟨fun _ => hA1, fun _ => ⟨hA3, hA2⟩, by rw [← hA4]; exact extOk_nil _⟩
    · simp only [onOkOut]
      exact ⟨fun _ => hA1, fun _ => ⟨hA3, hA2⟩, by rw [← hA4]; exact extOk_nil _⟩

theorem runPackets_extOk (dec : List Nat → Nat → String) :
    ∀ (pkts : List (List Nat)) (s : AnalyzerState),
      ∃ b2, extOk s.preludePrinted (runPackets dec pkts s).2 b2 := by
  intro pkts
  induction pkts with
  | nil =>
    intro s
    exact ⟨s.preludePrinted, extOk_nil _⟩
  | cons packet rest ih =>
    intro s
    unfold runPackets
    cases hap : analyzePacket dec packet s with
    | error e => exact ⟨s.preludePrinted, extOk_nil _⟩
    | ok r =>
      have hm := analyzePacket_master dec packet s
      rw [hap] at hm
      simp only [onOkOut] at hm
      obtain ⟨b2, hrest⟩ := ih r.1
      exact ⟨b2, extOk_trans hm.2.2 hrest⟩

/-- C5: once the recorded program-map PID set is non-empty, processing any
further packet (in particular any PAT packet on PID 0) leaves the set
unchanged. -/
theorem c5_pmtPids_idempotent (dec : List Nat → Nat → String) (packet : List Nat)
    (s : AnalyzerState) (l : List Nat) (h1 : s.pmtPids = some l) (h2 : l ≠ []) :
    onOk (analyzePacket dec packet s) (fun s2 => s2.pmtPids = s.pmtPids) := by
  have hm := analyzePacket_master dec packet s
  cases hap : analyzePacket dec packet s with
  | error e => simp [onOk]
  | ok r =>
    rw [hap] at hm
    simp only [onOkOut] at hm
    simp only [onOk]
    refine hm.1 ?_
    rw [h1]
    simp [pmtSize]
    exact h2

theorem c5_witness :
    discoveredState.pmtPids = some [0x100] ∧
    onOk (analyzePacket decodeCprofile patPacket discoveredState)
      (fun s2 => s2.pmtPids = discoveredState.pmtPids) :=
  ⟨rfl, c5_pmtPids_idempotent decodeCprofile patPacket discoveredState [0x100] rfl
    (by decide)⟩

/-- C6: once the caption PID is resolved (not -1), processing any further
packet (in particular any later PMT) leaves both the caption PID and the PCR
PID unchanged. -/
theorem c6_pids_first_match_wins (dec : List Nat → Nat → String)
    (packet : List Nat) (s : AnalyzerState) (h : s.captionPid ≠ -1) :
    onOk (analyzePacket dec packet s)
      (fun s2 => s2.captionPid = s.captionPid ∧ s2.pcrPid = s.pcrPid) := by
  have hm := analyzePacket_master dec packet s
  cases hap : analyzePacket dec packet s with
  | error e => simp [onOk]
  | ok r =>
    rw [hap] at hm
    simp only [onOkOut] at hm
    simp only [onOk]
    exact hm.2.1 h

theorem c6_witness :
    resolvedState.captionPid = 0x200 ∧ resolvedState.pcrPid = 0x101 ∧
    onOk (analyzePacket decodeCprofile pmtPacket resolvedState)
      (fun s2 => s2.captionPid = resolvedState.captionPid ∧
        s2.pcrPid = resolvedState.pcrPid) :=
  ⟨rfl, rfl, c6_pids_first_match_wins decodeCprofile pmtPacket resolvedState
    (by decide)⟩

/-- C7: a packet whose first byte is not 0x47 fails decoding with the fatal
sync-byte error, whatever the rest of the packet and the state, and the run
stops there with no further processing. -/
theorem c7_sync_byte_fatal (dec : List Nat → Nat → String) (packet : List Nat)
    (rest : List (List Nat)) (s : AnalyzerState)
    (h : packet.getD 0 0 ≠ 0x47) :
    analyzePacket dec packet s = .error "sync_byte failed" ∧
    runPackets dec (packet :: rest) s = (.error "sync_byte failed", []) := by
  have h1 : analyzePacket dec packet s = .error "sync_byte failed" := by
    unfold analyzePacket assertSyncByte
    rw [if_pos h]
  refine ⟨h1, ?_⟩
  unfold runPackets
  rw [h1]

theorem c7_witness :
    badSyncPacket.getD 0 0 ≠ 0x47 ∧
    analyzePacket decodeCprofile badSyncPacket initialState =
      .error "sync_byte failed" ∧
    runPackets decodeCprofile [badSyncPacket] initialState =
      (.error "sync_byte failed", []) := by
  have h := c7_sync_byte_fatal decodeCprofile badSyncPacket [] initialState
    (by decide)
  exact ⟨by decide, h.1, h.2⟩

/-- C8: centitime divides the 27 MHz presentation clock by 270000, and a clock
value of exactly 27000000 ticks maps to exactly 100 centitime units. -/
theorem c8_centitime_divides :
    (∀ clock : SystemClock, centitime clock = Int.tdiv clock 270000) ∧
    centitime 27000000 = 100 :=
  ⟨fun _ => rfl, by decide⟩

/-- C3: at PCR bytes with only the low bit of byte 5 set, the source computes
clock 1 (the extension bit is ORed into bit 0), while the claimed 9-bit layout
(low bit of byte 5 as bit 8 of the extension) yields 256. -/
theorem c3_pcr_extension_divergence :
    extractPcr pcrLowBitPayload = 1 ∧ extractPcrSpec pcrLowBitPayload = 256 ∧
    extractPcr pcrLowBitPayload ≠ extractPcrSpec pcrLowBitPayload :=
  ⟨by decide, by decide, by decide⟩

/-- C4 counterexample: a time-offset payload that opens with marker 0x73 and
decodes (MJD 59580, a January date, whose month comes out 0 under the
source's month formula) to a date-time Go's time.Parse rejects makes
extractJstTime, and with it the whole packet analysis, abort with a fatal
error. -/
theorem c4_counterexample :
    januaryTotPayload.getD 0 0 = 0x73 ∧
    extractJstTime januaryTotPayload = .error "time parse error" ∧
    analyzePacket decodeCprofile januaryTotPacket initialState =
      .error "time parse error" :=
  ⟨rfl, rfl, rfl⟩

/-- C4 amended: a time-table payload not opening with marker 0x73 is silently
skipped, returning 0 ("no new time") and never aborting. -/
theorem c4_marker_mismatch_skipped (payload : List Nat)
    (h : payload.getD 0 0 ≠ 0x73) : extractJstTime payload = .ok 0 := by
  unfold extractJstTime
  rw [if_pos h]

theorem c4_witness :
    nonTotPayload.getD 0 0 ≠ 0x73 ∧ extractJstTime nonTotPayload = .ok 0 :=
  ⟨by decide, c4_marker_mismatch_skipped nonTotPayload (by decide)⟩

theorem captionEmits_iff (s : AnalyzerState) :
    captionEmits s = true ↔
      (s.previousSubtitle.length ≠ 0 ∧
        ¬(isBlank s.previousSubtitle = true ∧ s.previousIsBlank = true)) := by
  unfold captionEmits
  cases hb : isBlank s.previousSubtitle <;>
    cases hp : s.previousIsBlank <;>
      simp [hb, hp]

theorem captionStep_out_ne_nil (text : String) (s : AnalyzerState) :
    (captionStep text s).2 ≠ [] ↔
      (s.previousSubtitle.length ≠ 0 ∧
        ¬(isBlank s.previousSubtitle = true ∧ s.previousIsBlank = true)) := by
  by_cases hc : captionEmits s = true
  · unfold captionStep
    rw [if_pos hc]
    constructor
    · intro _
      exact (captionEmits_iff s).mp hc
    · intro _
      simp
  · unfold captionStep
    rw [if_neg hc]
    constructor
    · intro hne
      exact absurd rfl hne
    · intro hcond
      exact absurd ((captionEmits_iff s).mpr hcond) hc

/-- C1 counterexample: starting from the initial state, feed the decoded
caption texts "A", "  ", "  ".  At the third unit both the arriving text and
the pending text are blank (and the pending text is non-empty), so the claim
predicts no emission; the source nevertheless emits the blank caption's
dialogue interval, because its guard consults the stored previousIsBlank flag
(the blankness of "A") instead of the arriving text. -/
theorem c1_counterexample :
    isBlank "  " = true ∧
    ((captionStep "  " (captionStep "A" initialState).1).1).previousSubtitle = "  " ∧
    ((captionStep "  " (captionStep "A" initialState).1).1).previousSubtitle ≠ "" ∧
    (captionStep "  " (captionStep "  " (captionStep "A" initialState).1).1).2 =
      [OutputLine.dialogue 0 0 "  "] :=
  ⟨by decide, by decide, by decide, by decide⟩

/-- C1 amended: on each displayable caption-string data unit, a finished
dialogue interval from the pending start to the current instant with the
pending text is emitted if and only if the pending text is non-empty and not
both the pending text is blank and the stored previousIsBlank flag (the
blankness of the text the pending one replaced) is set. -/
theorem c1_emission_guard (text : String) (s : AnalyzerState) :
    ((captionStep text s).2).filter isDialogueLine =
      (if s.previousSubtitle.length ≠ 0 ∧
          ¬(isBlank s.previousSubtitle = true ∧ s.previousIsBlank = true) then
        [OutputLine.dialogue (centitime s.previousTimestamp + s.clockOffset)
          (centitime s.currentTimestamp + s.clockOffset) s.previousSubtitle]
      else []) := by
  by_cases hc : captionEmits s = true
  · unfold captionStep
    rw [if_pos hc, if_pos ((captionEmits_iff s).mp hc)]
    dsimp only
    cases hb : s.preludePrinted <;> simp [printPrelude, isDialogueLine]
  · unfold captionStep
    rw [if_neg hc, if_neg (fun hx => hc ((captionEmits_iff s).mpr hx))]
    rfl

/-- C10: after each displayable caption-string unit, previousIsBlank records
the blankness of the subtitle that was pending before the unit arrived (the
replaced text), never that of the newly stored pending text; consequently the
guard at the next unit tests the pending text's blankness against its
predecessor's, not against the then-arriving text. -/
theorem c10_previousIsBlank_lags (text : String) (s : AnalyzerState) :
    ((captionStep text s).1).previousIsBlank = isBlank s.previousSubtitle ∧
    ((captionStep text s).1).previousSubtitle = text ∧
    (∀ u : String,
      ((captionStep u (captionStep text s).1).2 ≠ [] ↔
        (text.length ≠ 0 ∧
          ¬(isBlank text = true ∧ isBlank s.previousSubtitle = true)))) := by
  have h1 : ((captionStep text s).1).previousIsBlank = isBlank s.previousSubtitle := by
    unfold captionStep
    split <;> rfl
  have h2 : ((captionStep text s).1).previousSubtitle = text := by
    unfold captionStep
    split <;> rfl
  refine ⟨h1, h2, fun u => ?_⟩
  rw [captionStep_out_ne_nil u (captionStep text s).1, h1, h2]

/-- C2 counterexample: two time-offset tables one hour apart, fed from the
initial state, each set clockOffset; the second observation changes the
recorded offset, so the offset is not fixed by the first observation. -/
theorem c2_counterexample :
    (stepOk totPacket1 initialState).clockOffset = 39745260000 ∧
    (stepOk totPacket2 (stepOk totPacket1 initialState)).clockOffset = 39745620000 ∧
    (stepOk totPacket2 (stepOk totPacket1 initialState)).clockOffset ≠
      (stepOk totPacket1 initialState).clockOffset :=
  ⟨by decide, by decide, by decide⟩

/-- C2 amended: every time-offset-table observation that decodes a non-zero
wall time recomputes clockOffset as walltime centitime minus the presentation
clock centitime at that moment, whatever offset was recorded before (the last
observation wins). -/
theorem c2_offset_overwritten (dec : List Nat → Nat → String) (packet : List Nat)
    (s : AnalyzerState) (t : Int)
    (hsync : packet.getD 0 0 = 0x47)
    (hpid : ((packet.getD 1 0 &&& 0x1f) <<< 8) ||| packet.getD 2 0 = 0x14)
    (hpay : packet.getD 3 0 &&& 0x10 ≠ 0)
    (hmem : pmtMember s.pmtPids 0x14 = false)
    (hjst : extractJstTime ((payloadWindow packet).drop 1) = .ok t)
    (ht : t ≠ 0) :
    onOk (analyzePacket dec packet s)
      (fun s2 => s2.clockOffset =
        t * 100 - centitime (adaptationStep packet s).currentTimestamp) := by
  unfold analyzePacket
  have hs : assertSyncByte packet = .ok () := by
    unfold assertSyncByte
    exact if_neg (fun hcon => hcon hsync)
  rw [hs]
  dsimp only
  rw [if_pos hpay, hpid]
  rw [if_neg (by decide : ¬((0x14 : Nat) = 0))]
  rw [(adaptationStep_fields packet s).1, hmem]
  rw [if_neg (by decide : ¬(false = true))]
  rw [if_pos (rfl : (0x14 : Nat) = 0x0014)]
  rw [hjst]
  dsimp only
  rw [if_pos ht]
  simp only [onOk]

theorem c2_witness :
    totPacket1.getD 0 0 = 0x47 ∧
    ((totPacket1.getD 1 0 &&& 0x1f) <<< 8) ||| totPacket1.getD 2 0 = 0x14 ∧
    extractJstTime ((payloadWindow totPacket1).drop 1) = .ok 397452600 ∧
    onOk (analyzePacket decodeCprofile totPacket1 initialState)
      (fun s2 => s2.clockOffset =
        397452600 * 100 -
          centitime (adaptationStep totPacket1 initialState).currentTimestamp) := by
  refine ⟨rfl, rfl, rfl, ?_⟩
  exact c2_offset_overwritten decodeCprofile totPacket1 initialState 397452600
    rfl rfl (by decide) rfl rfl (by decide)

/-- C9: over any run from the initial state, standard output is either empty,
or opens with the header, contains the header exactly once, and contains a
dialogue line; hence the header is printed exactly once, immediately before
the first dialogue line, and a run that emits no dialogue interval produces no
output at all. -/
theorem c9_header_lazy_once (dec : List Nat → Nat → String)
    (pkts : List (List Nat)) :
    (runPackets dec pkts initialState).2 = [] ∨
      ((runPackets dec pkts initialState).2.head? = some OutputLine.prelude ∧
        (runPackets dec pkts initialState).2.count OutputLine.prelude = 1 ∧
        (runPackets dec pkts initialState).2.any isDialogueLine = true) := by
  obtain ⟨b2, h⟩ := runPackets_extOk dec pkts initialState
  have h2 : extOk false (runPackets dec pkts initialState).2 b2 := h
  simp only [extOk] at h2
  rcases h2 with ⟨ho, _⟩ | ⟨rest, ho, hnm, hne, _⟩
  · exact Or.inl ho
  · refine Or.inr ⟨by rw [ho]; rfl, ?_, ?_⟩
    · rw [ho]
      simp [List.count_cons]
      exact List.count_eq_zero.mpr hnm
    · rw [ho]
      cases rest with
      | nil => exact absurd rfl hne
      | cons x xs =>
        have hx : isDialogueLine x = true := by
          cases x with
          | prelude => exact absurd (List.mem_cons_self _ _) hnm
          | dialogue a b t => rfl
        simp [hx]
